import Mathlib

/-!
Shallow embedding of the state-synchronization core of the `react-basics`
repository: the todo Collection Store (`src/pages/TodoList.tsx`), the
counter screen (`src/pages/Counter.tsx`), and the user-profile fetch
lifecycle (the `UserProfile` component).  Definitions follow the
TypeScript source line by line; JavaScript objects with integer keys are
modelled as association lists kept in ascending key order (the
enumeration order JavaScript guarantees for integer-like keys), and a
property explicitly assigned `undefined` is a present key bound to
`none` (a tombstone), distinct from an absent key.
-/

namespace ReactBasics

/-- A todo record, mirroring `interface Todo { id; text; completed }`. -/
structure Todo where
  id : Nat
  text : String
  completed : Bool
deriving Repr, DecidableEq

/-- The `TodoList` mapping `{[id: number]: Todo | undefined}`: a JavaScript
object whose integer keys enumerate in ascending order.  An entry
`(k, none)` is a key explicitly set to `undefined` (a tombstone);
an entry `(k, some t)` is a key holding a record. -/
abbrev TodoMap := List (Nat × Option Todo)

/-- Property read `obj[k]` distinguishing key-absent (`none`) from
key-present (`some v`, where `v` may itself be `none` = `undefined`). -/
def getKey : TodoMap → Nat → Option (Option Todo)
  | [], _ => none
  | (k', v') :: rest, k => if k = k' then some v' else getKey rest k

/-- Property write `obj[k] = v`: replaces the value when `k` is already a
key, otherwise creates the key at its ascending-order position (the
position JavaScript integer-key enumeration gives it). -/
def setKey : TodoMap → Nat → Option Todo → TodoMap
  | [], k, v => [(k, v)]
  | (k', v') :: rest, k, v =>
    if k < k' then (k, v) :: (k', v') :: rest
    else if k = k' then (k, v) :: rest
    else (k', v') :: setKey rest k v

/-- JavaScript expression `todoList[id]`: an absent key and a key set to
`undefined` both read as `undefined`. -/
def jsGet (m : TodoMap) (k : Nat) : Option Todo :=
  match getKey m k with
  | none => none
  | some v => v

/-- `Object.values(todoList)`: the values of all present keys in
enumeration order, including `undefined` values of tombstoned keys. -/
def values (m : TodoMap) : List (Option Todo) :=
  m.map (fun p => p.2)

/-- The store as published to the owning `useState` cell.  `ref` models
JavaScript object identity: the component mutates `todoList` in place and
republishes it via `setTodos(todoList)`, so an operation that keeps `ref`
publishes the very same object, and the prior identity's content after
the call is whatever `content` now holds. -/
structure StoreRef where
  ref : Nat
  content : TodoMap
deriving DecidableEq

/-- The empty store created on mount: `useState<TodoList>({})`. -/
def emptyStore : StoreRef := { ref := 0, content := [] }

/-- JavaScript `String.prototype.trim()`: strips leading and trailing
whitespace. -/
def jsTrim (s : String) : String :=
  ⟨((s.data.dropWhile Char.isWhitespace).reverse.dropWhile
      Char.isWhitespace).reverse⟩

/-- `addTodo` from `TodoList.tsx`: returns unchanged if the input text
trims to empty; otherwise writes `{id: Date.now(), text: trimmed,
completed: false}` at key `Date.now()` into the same object and
republishes it (`now` is the `Date.now()` reading at the call). -/
def addTodo (now : Nat) (text : String) (s : StoreRef) : StoreRef :=
  if jsTrim text = "" then s
  else { s with
         content := setKey s.content now
           (some { id := now, text := jsTrim text, completed := false }) }

/-- `toggleTodo` from `TodoList.tsx`:
`todoList[id]!.completed = !todoList[id]!.completed`.  When `todoList[id]`
is `undefined` (absent key or tombstone) the member access throws a
`TypeError`, modelled as `none`; otherwise the record is mutated in place
and the same object republished. -/
def toggleTodo (id : Nat) (s : StoreRef) : Option StoreRef :=
  match jsGet s.content id with
  | none => none
  | some t =>
      some { s with
             content := setKey s.content id
               (some { t with completed := !t.completed }) }

/-- `deleteTodo` from `TodoList.tsx`: `todoList[id] = undefined` — the key
is assigned `undefined` (created if absent), not removed, and the same
object is republished. -/
def deleteTodo (id : Nat) (s : StoreRef) : StoreRef :=
  { s with content := setKey s.content id none }

/-- Number of records the store actually holds (entries whose value is a
real record, not a tombstone). -/
def storeSize (m : TodoMap) : Nat :=
  ((values m).filterMap (fun v => v)).length

/-- Well-formedness of a JavaScript integer-key object: keys are strictly
ascending, hence unique. -/
def WFMap (m : TodoMap) : Prop :=
  List.Pairwise (fun a b => a.1 < b.1) m

instance : DecidablePred WFMap := fun m =>
  inferInstanceAs (Decidable (List.Pairwise _ m))

/-! Concrete stores used to evaluate the operations. -/

/-- A one-record store as reached by a single successful create. -/
def todoA : Todo := { id := 1, text := "a", completed := false }

/-- The store holding exactly `todoA` under key 1. -/
def storeA : StoreRef := { ref := 0, content := [(1, some todoA)] }

/-! ## Counter screen (`src/pages/Counter.tsx`) -/

/-- The counter screen's state: `useState(0)` for `count`,
`useState(5)` for `step`.  JavaScript numbers are modelled as rationals:
the step handler receives `Number(e.target.value)`, which can be
fractional (e.g. `0.5`), and the only operations performed on these
values — comparison with 0, assignment, addition and subtraction — are
exact on the doubles the input can deliver.  (A `NaN` reading compares
false with 0 and so stores 1; it is subsumed by the non-positive
branch.) -/
structure CounterState where
  count : Rat
  step : Rat
deriving Repr, DecidableEq

/-- State on mount: `count = 0`, `step = 5`. -/
def initialCounter : CounterState := { count := 0, step := 5 }

/-- `increment`: `setCount(count + step)`. -/
def increment (s : CounterState) : CounterState :=
  { s with count := s.count + s.step }

/-- `decrement`: `setCount(count - step)`. -/
def decrement (s : CounterState) : CounterState :=
  { s with count := s.count - s.step }

/-- `reset(all = false)`: `setCount(0); if (all) setStep(1)`. -/
def reset (all : Bool) (s : CounterState) : CounterState :=
  { count := 0, step := if all then 1 else s.step }

/-- `handleStepChange(value)`: `setStep(value > 0 ? value : 1)`, where
`value` is the `Number(e.target.value)` reading of the number input and
may be fractional. -/
def handleStepChange (value : Rat) (s : CounterState) : CounterState :=
  { s with step := if 0 < value then value else 1 }

/-- The user actions the counter screen exposes. -/
inductive CounterEvent where
  | inc
  | dec
  | doReset (all : Bool)
  | stepChange (value : Rat)

/-- Effect of one user action on the counter state. -/
def applyCounter (s : CounterState) : CounterEvent → CounterState
  | .inc => increment s
  | .dec => decrement s
  | .doReset all => reset all s
  | .stepChange v => handleStepChange v s

/-- States the counter screen can reach from mount via user actions. -/
inductive ReachableCounter : CounterState → Prop where
  | init : ReachableCounter initialCounter
  | step {s : CounterState} (e : CounterEvent) :
      ReachableCounter s → ReachableCounter (applyCounter s e)

/-! ## User profile screen (the `UserProfile` component) -/

/-- `company` sub-record of the fetched user. -/
structure Company where
  name : String
  catchPhrase : String
deriving Repr, DecidableEq

/-- The `User` interface of the profile screen. -/
structure User where
  id : Nat
  name : String
  email : String
  phone : String
  website : String
  company : Company
deriving Repr, DecidableEq

/-- The three `useState` cells of `UserProfile`:
`user` (initially `null`), `loading` (initially `true`),
`error` (initially `null`). -/
structure ProfileState where
  user : Option User
  loading : Bool
  error : Option String
deriving Repr, DecidableEq

/-- The profile screen's state at mount. -/
def initialProfile : ProfileState :=
  { user := none, loading := true, error := none }

/-- One `setXxx` call issued by `fetchUser`. -/
inductive SetOp where
  | setUser (u : Option User)
  | setLoading (b : Bool)
  | setError (e : Option String)

/-- Effect of one `setXxx` call on the profile state. -/
def applySet (s : ProfileState) : SetOp → ProfileState
  | .setUser u => { s with user := u }
  | .setLoading b => { s with loading := b }
  | .setError e => { s with error := e }

/-- Runs a sequence of `setXxx` calls in order. -/
def runOps (s : ProfileState) (ops : List SetOp) : ProfileState :=
  ops.foldl applySet s

/-- The `setXxx` calls the success path of `fetchUser` performs:
`setLoading(true)`, `setUser(response.data)`, `setError(null)`, and in
`finally`, `setLoading(false)`. -/
def successOps (u : User) : List SetOp :=
  [.setLoading true, .setUser (some u), .setError none, .setLoading false]

/-- The `setXxx` calls the failure path of `fetchUser` performs:
`setLoading(true)`, then in `catch`, `setError(message)`, then in
`finally`, `setLoading(false)`. -/
def failureOps (msg : String) : List SetOp :=
  [.setLoading true, .setError (some msg), .setLoading false]

/-- The settle portion of the success path: the calls a resolving
response triggers when it arrives (that attempt's `setLoading(true)`
already ran when the attempt started). -/
def resolveOps (u : User) : List SetOp :=
  [.setUser (some u), .setError none, .setLoading false]

/-- The four lifecycle statuses of the spec's Resource. -/
inductive Status where
  | idle
  | loading
  | success
  | error
deriving Repr, DecidableEq

/-- The status the rendering logic derives from the three cells: the
component returns the spinner when `loading`, else the error view when
`error` is set, else the profile view (success when a user is present,
the pre-fetch empty view otherwise). -/
def status (s : ProfileState) : Status :=
  if s.loading then .loading
  else if s.error.isSome then .error
  else if s.user.isSome then .success
  else .idle

/-- A fetched user record like the one the fixed-key endpoint returns. -/
def sampleUser : User :=
  { id := 1, name := "Leanne Graham", email := "Sincere@april.biz",
    phone := "1-770-736-8031", website := "hildegard.org",
    company := { name := "Romaguera-Crona",
                 catchPhrase := "Multi-layered client-server neural-net" } }

/-- A resource that has already settled in the `error` state. -/
def staleErrorState : ProfileState :=
  { user := none, loading := false, error := some "network error" }

/-! Basic lemmas about `setKey` and `getKey`. -/

theorem getKey_setKey (m : TodoMap) (k : Nat) (v : Option Todo) :
    getKey (setKey m k v) k = some v := by
  induction m with
  | nil => simp [setKey, getKey]
  | cons hd tl ih =>
      obtain ⟨k', v'⟩ := hd
      by_cases hlt : k < k'
      · simp [setKey, getKey, hlt]
      · by_cases heq : k = k'
        · simp [setKey, getKey, hlt, heq]
        · simp [setKey, getKey, hlt, heq, ih]

theorem setKey_setKey (m : TodoMap) (k : Nat) (v w : Option Todo) :
    setKey (setKey m k v) k w = setKey m k w := by
  induction m with
  | nil => simp [setKey]
  | cons hd tl ih =>
      obtain ⟨k', v'⟩ := hd
      by_cases hlt : k < k'
      · simp [setKey, hlt, lt_irrefl]
      · by_cases heq : k = k'
        · simp [setKey, hlt, heq, lt_irrefl]
        · simp [setKey, hlt, heq, ih]

theorem getKey_mem {m : TodoMap} {k : Nat} {v : Option Todo}
    (h : getKey m k = some v) : (k, v) ∈ m := by
  induction m with
  | nil => simp [getKey] at h
  | cons hd tl ih =>
      obtain ⟨k', v'⟩ := hd
      by_cases heq : k = k'
      · simp [getKey, heq] at h
        subst heq; subst h
        exact List.mem_cons_self _ _
      · simp [getKey, heq] at h
        exact List.mem_cons_of_mem _ (ih h)

theorem setKey_eq_self {m : TodoMap} {k : Nat} {v : Option Todo}
    (hwf : WFMap m) (h : getKey m k = some v) : setKey m k v = m := by
  induction m with
  | nil => simp [getKey] at h
  | cons hd tl ih =>
      obtain ⟨k', v'⟩ := hd
      rw [WFMap, List.pairwise_cons] at hwf
      obtain ⟨hlt_all, htl⟩ := hwf
      by_cases heq : k = k'
      · simp [getKey, heq] at h
        subst heq; subst h
        simp [setKey]
      · simp [getKey, heq] at h
        have hk_mem := getKey_mem h
        have hk'_lt : k' < k := hlt_all (k, v) hk_mem
        have hnlt : ¬ k < k' := by omega
        simp [setKey, hnlt, heq, ih htl h]

/-! ## Claim theorems -/

/-- C1: contrary to the referential-distinctness requirement, every
mutating todo operation publishes the very same store identity it was
given — `addTodo` on the empty store, `toggleTodo` on a present id and
`deleteTodo` on a present id all keep `ref` while changing the content,
so the prior identity's content is overwritten in place rather than
preserved. -/
theorem mutations_publish_same_identity :
    (addTodo 1 "a" emptyStore).ref = emptyStore.ref ∧
    (addTodo 1 "a" emptyStore).content ≠ emptyStore.content ∧
    (toggleTodo 1 storeA).map (fun r => r.ref) = some storeA.ref ∧
    (toggleTodo 1 storeA).map (fun r => r.content) ≠ some storeA.content ∧
    (deleteTodo 1 storeA).ref = storeA.ref ∧
    (deleteTodo 1 storeA).content ≠ storeA.content := by
  decide

/-- C2: deleting the present id 1 leaves a tombstone: key 1 is still a
key of the mapping (bound to `undefined`), and the listed values contain
an absent entry, contrary to the no-tombstone requirement. -/
theorem delete_leaves_tombstone :
    getKey (deleteTodo 1 storeA).content 1 = some none ∧
    values (deleteTodo 1 storeA).content = [none] := by
  decide

/-- C3: two creates within the same millisecond tick (both reading
`Date.now() = 5`) receive the same id, and the second silently overwrites
the first, so the assigned ids are not pairwise distinct. -/
theorem sameTick_creates_collide :
    values (addTodo 5 "b" (addTodo 5 "a" emptyStore)).content
      = [some { id := 5, text := "b", completed := false }] := by
  decide

/-- C4: toggling an id that is not present dereferences `undefined` and
throws (modelled as `none`) instead of being a no-op — both on a never
used id and on the id of the store's only record right after deleting
it (whose size is then 0). -/
theorem toggle_absent_crashes :
    toggleTodo 2 emptyStore = none ∧
    storeSize (deleteTodo 1 storeA).content = 0 ∧
    toggleTodo 1 (deleteTodo 1 storeA) = none := by
  decide

/-- C5: a resolve arriving while the resource is in the `error` status
(a stale response of an abandoned attempt) is not ignored: the state
changes and the status is corrupted to `success`. -/
theorem stale_resolve_corrupts_error_state :
    status staleErrorState = Status.error ∧
    runOps staleErrorState (resolveOps sampleUser) ≠ staleErrorState ∧
    status (runOps staleErrorState (resolveOps sampleUser))
      = Status.success := by
  decide

/-- C6: the resource is not created idle — at mount `loading` is already
`true` — and the illegal loading-and-error combination is representable
and actually reached midway through the failure path (after the `catch`
ran `setError` and before `finally` ran `setLoading(false)`). -/
theorem mount_status_not_idle :
    status initialProfile = Status.loading ∧
    Status.loading ≠ Status.idle ∧
    (runOps initialProfile
      ((failureOps "Failed to fetch user data").take 2)).loading = true ∧
    (runOps initialProfile
      ((failureOps "Failed to fetch user data").take 2)).error.isSome
      = true := by
  decide

/-- C7: creating with non-empty trimmed text `"b"` in the same tick that
already produced a record (tick 5) does not grow the store: the size
stays 1 instead of becoming `size(S) + 1`. -/
theorem sameTick_create_size_unchanged :
    jsTrim "b" ≠ "" ∧
    storeSize (addTodo 5 "a" emptyStore).content = 1 ∧
    storeSize (addTodo 5 "b" (addTodo 5 "a" emptyStore)).content = 1 := by
  decide

/-- C8: for every well-formed store whose key `k` holds an actual
record, applying `toggleTodo` twice at `k` gives back the store exactly:
the record's `completed` value is restored and every other entry is
untouched. -/
theorem toggleTodo_involution (s : StoreRef) (k : Nat) (t : Todo)
    (hwf : WFMap s.content) (h : jsGet s.content k = some t) :
    (toggleTodo k s).bind (toggleTodo k) = some s := by
  have hk : getKey s.content k = some (some t) := by
    unfold jsGet at h
    cases hg : getKey s.content k with
    | none => rw [hg] at h; exact absurd h (by simp)
    | some v => rw [hg] at h; simp at h; rw [h]
  have h1 : toggleTodo k s = some { s with
      content := setKey s.content k
        (some { t with completed := !t.completed }) } := by
    unfold toggleTodo
    rw [h]
  have h2 : jsGet (setKey s.content k
        (some { t with completed := !t.completed })) k
      = some { t with completed := !t.completed } := by
    unfold jsGet
    rw [getKey_setKey]
  rw [h1, Option.some_bind]
  unfold toggleTodo
  rw [h2]
  simp only [Bool.not_not, setKey_setKey]
  rw [setKey_eq_self hwf hk]

/-- Witness for C8: the double toggle at key 1 of the concrete
one-record store returns that store. -/
theorem toggleTodo_involution_witness :
    (toggleTodo 1 storeA).bind (toggleTodo 1) = some storeA :=
  toggleTodo_involution storeA 1 todoA (by decide) (by decide)

/-- C9 counterexample: entering `0.5` into the step input is a single
user action from the mount state, and the handler stores
`step = 0.5 < 1`, so the reachable-state invariant "step is at least 1"
fails on the code. -/
theorem counter_step_half_reachable :
    ReachableCounter (applyCounter initialCounter
      (CounterEvent.stepChange (1 / 2))) ∧
    (applyCounter initialCounter
      (CounterEvent.stepChange (1 / 2))).step < 1 := by
  constructor
  · exact ReachableCounter.step _ ReachableCounter.init
  · norm_num [applyCounter, handleStepChange, initialCounter]

/-- C9 (amended): in every reachable counter state the step is strictly
positive; the initial step is positive, `handleStepChange` stores a
positive input and otherwise stores 1, `reset true` sets the step to 1,
and the remaining operations leave the step unchanged. -/
theorem counter_step_pos (s : CounterState) (h : ReachableCounter s) :
    0 < s.step ∧
    (∀ n : Rat, 0 < n → (handleStepChange n s).step = n) ∧
    (∀ n : Rat, ¬ 0 < n → (handleStepChange n s).step = 1) ∧
    (reset true s).step = 1 ∧
    (reset false s).step = s.step ∧
    (increment s).step = s.step ∧
    (decrement s).step = s.step := by
  refine ⟨?_, ?_, ?_, ?_, ?_, ?_, ?_⟩
  · induction h with
    | init => norm_num [initialCounter]
    | step e h ih =>
        cases e with
        | inc => simpa [applyCounter, increment] using ih
        | dec => simpa [applyCounter, decrement] using ih
        | doReset all =>
            cases all
            · simpa [applyCounter, reset] using ih
            · norm_num [applyCounter, reset]
        | stepChange v =>
            by_cases hv : 0 < v
            · simp [applyCounter, handleStepChange, hv]
            · norm_num [applyCounter, handleStepChange, hv]
  · intro n hn; simp [handleStepChange, hn]
  · intro n hn; simp [handleStepChange, hn]
  · simp [reset]
  · simp [reset]
  · simp [increment]
  · simp [decrement]

/-- Witness for the amended C9: the mount state is reachable and its
step, 5, is strictly positive. -/
theorem counter_step_pos_witness : 0 < initialCounter.step :=
  (counter_step_pos initialCounter ReachableCounter.init).1

/-- C10: for every counter state, `reset false` zeroes the count and
leaves the step at its prior value; `reset true` additionally sets the
step to 1, which differs from the initial step value 5. -/
theorem reset_frame_effect (s : CounterState) :
    (reset false s).count = 0 ∧
    (reset false s).step = s.step ∧
    (reset true s).count = 0 ∧
    (reset true s).step = 1 ∧
    initialCounter.step = 5 ∧
    (reset true s).step ≠ initialCounter.step := by
  simp [reset, initialCounter]

end ReactBasics
